import Mathlib

/-
  Verification development for the ParkPulse backend ledger-interaction layer
  (`blockchain.py` and `close_proposals.py`).

  The Python source is shallowly embedded:
  * timestamps and decimal quantities are rationals (Python floats carry the
    exact decimal values of interest in every claim under scrutiny);
  * Python `int()` truncation toward zero is `ratTrunc`;
  * dynamically-typed Cadence values decoded from the ledger are the inductive
    `CObj`/`PyVal` model below;
  * code that can raise is embedded in `Except String`/`Option`;
  * network interactions (RPC results, transaction polling, close calls) are
    supplied as explicit environments so the surrounding control flow can be
    analysed as pure functions.
-/

namespace ParkPulse

/-- Python `int()` truncation toward zero on a rational. -/
def ratTrunc (q : ℚ) : ℤ :=
  if 0 ≤ q then ⌊q⌋ else ⌈q⌉

/-- Embedding of `blockchain.py` lines 112-134: the end-date block of
`create_proposal_on_blockchain`.  `parsedEnd` is the timestamp of the parsed
end-of-day date (`None` when `datetime.strptime` raised), `now` is
`datetime.now().timestamp()`.  The buffer is 3600 seconds; the fallback is
30 days expressed in seconds. -/
def normalizeEndDate (parsedEnd : Option ℚ) (now : ℚ) : ℚ :=
  let endTimestamp : ℚ :=
    match parsedEnd with
    | some t => t
    | none => now + 30 * 24 * 3600
  if endTimestamp ≤ now + 3600 then now + 30 * 24 * 3600 + 3600
  else endTimestamp

/-- The idealized write-path fixed-point encoding: truncation of the exact
product `x * 10^8` — the spec's `decimalToUfix64(x) = floor(x * 1e8)`.  The
code (`blockchain.py` lines 251-269) computes `int(x * 1e8)` in binary64
floating point, which can land one below this value (see `roundDouble` and
the C2 analysis); the data-flow claims that use this definition (C10) are
insensitive to that difference because both sides of their identities go
through the same encoding. -/
def decimalToUfix64 (x : ℚ) : ℤ :=
  ratTrunc (x * 100000000)

/-- The idealized read-path fixed-point decoding: exact rational division by
`10^8` — the spec's `ufix64ToDecimal(raw) = raw / 1e8`.  The code
(`blockchain.py` lines 534-540, helper `ufix64_to_float`) performs
`float(value) / 1e8` in binary64; for the integer raw values appearing in the
zero-default claims that use this definition (C8) the distinction is
immaterial, and the C2 analysis below treats the float computation itself. -/
def ufix64ToDecimal (raw : ℤ) : ℚ :=
  (raw : ℚ) / 100000000

/-- C1: End-date normalization.  (i) A parsed end date strictly more than one
hour after `now` is passed through unchanged; (ii) a parsed end date in the
past or within the one-hour safety buffer is overridden to
`now + 30 days + 1 hour`; (iii) an unparseable end date defaults to
`now + 30 days`. -/
theorem claim_C1_end_date_normalization :
    (∀ t now : ℚ, now + 3600 < t → normalizeEndDate (some t) now = t) ∧
    (∀ t now : ℚ, t ≤ now + 3600 →
      normalizeEndDate (some t) now = now + 30 * 24 * 3600 + 3600) ∧
    (∀ now : ℚ, normalizeEndDate none now = now + 30 * 24 * 3600) := by
  refine ⟨?_, ?_, ?_⟩
  · intro t now h
    simp only [normalizeEndDate]
    rw [if_neg (by linarith)]
  · intro t now h
    simp only [normalizeEndDate]
    rw [if_pos h]
  · intro now
    simp only [normalizeEndDate]
    rw [if_neg (by linarith)]

/-- Witness for C1 at concrete inputs (`now = 0`). -/
theorem claim_C1_witness :
    normalizeEndDate (some 10000) 0 = 10000 ∧
    normalizeEndDate (some 100) 0 = 2595600 ∧
    normalizeEndDate none 0 = 2592000 := by
  refine ⟨claim_C1_end_date_normalization.1 10000 0 (by norm_num), ?_, ?_⟩
  · have h := claim_C1_end_date_normalization.2.1 100 0 (by norm_num)
    rw [h]; norm_num
  · have h := claim_C1_end_date_normalization.2.2 0
    rw [h]; norm_num

/-- Round the fraction `num / den` (with `den > 0`) to the nearest integer,
ties to even — the IEEE-754 default rounding applied to a scaled
significand. -/
def rneDiv (num den : ℤ) : ℤ :=
  let q := Int.ediv num den
  let r := Int.emod num den
  if 2 * r < den then q
  else if den < 2 * r then q + 1
  else if Int.emod q 2 = 0 then q else q + 1

/-- Largest `e` with `2^e ≤ num / den`, for `den ≤ num`, by repeated
doubling of the denominator (the fuel far exceeds the binary64 exponent
range). -/
def fracLog2Up : ℕ → ℤ → ℤ → ℤ
  | 0, _, _ => 0
  | fuel + 1, num, den => if num < 2 * den then 0 else fracLog2Up fuel num (2 * den) + 1

/-- Largest `e` with `2^e ≤ num / den`, for `0 < num < den`, by repeated
doubling of the numerator. -/
def fracLog2Down : ℕ → ℤ → ℤ → ℤ
  | 0, _, _ => 0
  | fuel + 1, num, den => if den ≤ num then 0 else fracLog2Down fuel (2 * num) den - 1

/-- Binade of the positive fraction `num / den`: the largest `e` with
`2^e ≤ num / den`. -/
def fracLog2 (num den : ℤ) : ℤ :=
  if den ≤ num then fracLog2Up 2048 num den else fracLog2Down 2048 num den

/-- Exact model of rounding the positive fraction `num / den` to the nearest
IEEE-754 binary64 double, round-to-nearest ties-to-even, in the normal range
(no overflow or subnormals, and only the positive values the evaluated code
path produces): scale into the 53-bit significand range `[2^52, 2^53)` of the
value's binade and round.  The result `(m, scale)` denotes the double
`m * 2^scale`; this is precisely the correctly-rounded result IEEE-754
prescribes for a decimal-literal conversion or an exact-operand division such
as `float(value) / 1e8`. -/
def floatOfFraction (num den : ℤ) : ℤ × ℤ :=
  let e := fracLog2 num den
  let scale := e - 52
  let m :=
    if 0 ≤ scale then rneDiv num (den * 2 ^ scale.toNat)
    else rneDiv (num * 2 ^ (-scale).toNat) den
  (m, scale)

/-- Binary64 multiplication of a double by an exactly-representable integer
(`1e8` is one): the exact product, rounded back to a double. -/
def floatTimesInt (d : ℤ × ℤ) (k : ℤ) : ℤ × ℤ :=
  if 0 ≤ d.2 then floatOfFraction (d.1 * k * 2 ^ d.2.toNat) 1
  else floatOfFraction (d.1 * k) (2 ^ (-d.2).toNat)

/-- Python `int()` on a double: truncation toward zero (the doubles below are
positive, where truncation is floor division of the significand). -/
def floatTruncToInt (d : ℤ × ℤ) : ℤ :=
  if 0 ≤ d.2 then d.1 * 2 ^ d.2.toNat
  else Int.tdiv d.1 (2 ^ (-d.2).toNat)

/-- C2: Fixed-point round trip — the code falsifies it at x = 8.2, a decimal
with one fractional digit.  Evaluating the code's computation in the exact
binary64 model: the Python literal `8.2` is the double
`(4616189618054758, -49)`; the encoding `int(x * 1e8)` (`blockchain.py`
line 257 pattern) multiplies in binary64, giving the double
`6878658559999999 * 2^-23 = 819999999.9999999`, and truncates to `819999999`
— one below the exact `floor(8.2 * 10^8) = 820000000`; decoding
(`float(819999999) / 1e8`, `blockchain.py` line 540) rounds to a double with
a different significand than `8.2`, and the exact decimal reading
`819999999 / 10^8` likewise differs from `41 / 5`.  So the program's round
trip is not exact inside the claim's domain; the spec's requirement that the
two directions be exact inverses is the intent the float arithmetic fails to
implement. -/
theorem claim_C2_float_round_trip_fails :
    floatOfFraction 41 5 = (4616189618054758, -49) ∧
    floatTimesInt (floatOfFraction 41 5) 100000000 = (6878658559999999, -23) ∧
    floatTruncToInt (floatTimesInt (floatOfFraction 41 5) 100000000) = 819999999 ∧
    floatOfFraction 819999999 100000000 ≠ floatOfFraction 41 5 ∧
    ufix64ToDecimal
        (floatTruncToInt (floatTimesInt (floatOfFraction 41 5) 100000000)) ≠
      41 / 5 := by
  refine ⟨by decide, by decide, by decide, by decide, ?_⟩
  have h3 : floatTruncToInt (floatTimesInt (floatOfFraction 41 5) 100000000) =
      819999999 := by decide
  rw [h3]
  norm_num [ufix64ToDecimal]

/-- Environment an invocation of `create_proposal_on_blockchain` runs against:
connectivity, configuration, account balance, the transaction hash assigned by
the node, the ledger's answer to the i-th `get_transaction_result` poll
(`status` and `error_message`, an empty string being Python-falsy), the
current `getTotalProposals` counter and the explorer base URL. -/
structure CreateEnv where
  connected : Bool
  address : String
  signer : Option Unit
  balance : ℚ
  txId : String
  pollStatus : ℕ → ℕ
  pollError : ℕ → String
  totalProposals : ℕ
  explorerBase : String

/-- Result dictionaries returned by `create_proposal_on_blockchain`, one
constructor per distinct dict shape in the source. -/
inductive CreateResult where
  | notConnected
  | notConfigured
  | insufficientBalance (balance : ℚ)
  | sealedFailed (error : String) (txHash : String)
  | sealedOk (txHash : String) (proposalId : ℕ) (explorerUrl : String)
  | sealTimeout (txHash : String) (explorerUrl : String)
  deriving DecidableEq, Repr

/-- Explorer URL built for a transaction hash. -/
def explorerUrl (env : CreateEnv) : String :=
  env.explorerBase ++ ("/transaction/") ++ env.txId

/-- Embedding of the sealing poll (`blockchain.py` lines 286-321): the
`while attempt < max_attempts` loop, fuel-translated with
`remaining = 30 - attempt`.  Each iteration sleeps 2 seconds and then queries
`get_transaction_result`; the second component counts the queries performed
(= the 2-second sleeps taken).  A sealed status (≥ 4) with a non-empty error
message yields the failure dict carrying the hash; a sealed status without
error yields the success dict whose proposal id is the current
`getTotalProposals` counter; exhausted fuel yields the timeout dict. -/
def pollLoop (env : CreateEnv) (attempt : ℕ) : ℕ → CreateResult × ℕ
  | 0 => (.sealTimeout env.txId (explorerUrl env), 0)
  | remaining + 1 =>
    if 4 ≤ env.pollStatus attempt then
      if env.pollError attempt ≠ "" then
        (.sealedFailed (("Transaction failed: ") ++ env.pollError attempt) env.txId, 1)
      else
        (.sealedOk env.txId env.totalProposals (explorerUrl env), 1)
    else
      let p := pollLoop env (attempt + 1) remaining
      (p.1, p.2 + 1)

/-- The poll loop as entered by the source: `attempt = 0`, `max_attempts = 30`. -/
def pollForSeal (env : CreateEnv) : CreateResult × ℕ :=
  pollLoop env 0 30

/-- Outcome of one `create_proposal_on_blockchain` call: the returned result
dict, the number of polls performed, and whether a transaction was submitted
to the node. -/
structure CreateOutcome where
  result : CreateResult
  pollCount : ℕ
  submitted : Bool
  deriving DecidableEq, Repr

/-- Embedding of the staged control flow of `create_proposal_on_blockchain`
(`blockchain.py` lines 99-321): connectivity check, configuration check
(`not self.address or not self.signer`), balance check (`balance < 0.001`),
then submission and the sealing poll. -/
def createProposalOnBlockchain (env : CreateEnv) : CreateOutcome :=
  if ¬ env.connected then ⟨.notConnected, 0, false⟩
  else if env.address = "" ∨ env.signer = none then ⟨.notConfigured, 0, false⟩
  else if env.balance < 1 / 1000 then ⟨.insufficientBalance env.balance, 0, false⟩
  else
    let p := pollForSeal env
    ⟨p.1, p.2, true⟩

/-- The poll loop performs at most `remaining` queries. -/
lemma pollLoop_count_le (env : CreateEnv) :
    ∀ remaining attempt, (pollLoop env attempt remaining).2 ≤ remaining := by
  intro remaining
  induction remaining with
  | zero => intro attempt; simp [pollLoop]
  | succ r ih =>
    intro attempt
    simp only [pollLoop]
    split
    · split <;> simp
    · simpa using Nat.succ_le_succ (ih (attempt + 1))

/-- If the ledger first reports a sealed status at poll index `k` (counting
from `attempt`), the loop stops right there after `k + 1` further queries. -/
lemma pollLoop_seals (env : CreateEnv) :
    ∀ remaining attempt k, k < remaining →
    (∀ i, i < k → env.pollStatus (attempt + i) < 4) →
    4 ≤ env.pollStatus (attempt + k) →
    pollLoop env attempt remaining =
      (if env.pollError (attempt + k) ≠ "" then
        CreateResult.sealedFailed (("Transaction failed: ") ++ env.pollError (attempt + k)) env.txId
      else
        CreateResult.sealedOk env.txId env.totalProposals (explorerUrl env), k + 1) := by
  intro remaining
  induction remaining with
  | zero => intro attempt k hk; omega
  | succ r ih =>
    intro attempt k hk hbefore hseal
    match k with
    | 0 =>
      simp only [Nat.add_zero] at hseal
      simp only [pollLoop, if_pos hseal]
      split <;> simp_all
    | k' + 1 =>
      have h0 : env.pollStatus attempt < 4 := by
        have := hbefore 0 (Nat.succ_pos k')
        simpa using this
      have hns : ¬ 4 ≤ env.pollStatus attempt := by omega
      have hidx : attempt + 1 + k' = attempt + (k' + 1) := by omega
      simp only [pollLoop]
      rw [if_neg hns]
      have hrec := ih (attempt + 1) k' (by omega)
        (fun i hi => by
          have := hbefore (i + 1) (by omega)
          simpa [Nat.add_assoc, Nat.add_comm 1 i] using this)
        (by rw [hidx]; exact hseal)
      rw [hrec, hidx]

/-- If no poll in range reports a sealed status, the loop exhausts its fuel
and reports the timeout, having performed all `remaining` queries. -/
lemma pollLoop_timeout (env : CreateEnv) :
    ∀ remaining attempt,
    (∀ i, i < remaining → env.pollStatus (attempt + i) < 4) →
    pollLoop env attempt remaining =
      (.sealTimeout env.txId (explorerUrl env), remaining) := by
  intro remaining
  induction remaining with
  | zero => intro attempt _; simp [pollLoop]
  | succ r ih =>
    intro attempt hall
    have h0 : env.pollStatus attempt < 4 := by
      have := hall 0 (Nat.succ_pos r)
      simpa using this
    have hns : ¬ 4 ≤ env.pollStatus attempt := by omega
    simp only [pollLoop]
    rw [if_neg hns]
    rw [ih (attempt + 1)
      (fun i hi => by
        have := hall (i + 1) (by omega)
        simpa [Nat.add_assoc, Nat.add_comm 1 i] using this)]

/-- C3: Sealing poll.  (i) The loop queries the transaction result at most 30
times (one 2-second sleep preceding each query); (ii) if the ledger first
reports sealed (status ≥ 4) at the N-th poll, N ≤ 30, and the sealed result
carries a non-empty error message, the loop returns the failure dict with the
transaction hash after exactly N polls; (iii) in the same situation with an
empty error message it returns the success dict whose proposal id is the
current total-proposal count, after exactly N polls; (iv) if all 30 polls see
an unsealed status the loop returns the timeout dict carrying the hash and
explorer URL after 30 polls. -/
theorem claim_C3_sealing_poll :
    (∀ env : CreateEnv, (pollForSeal env).2 ≤ 30) ∧
    (∀ (env : CreateEnv) (k : ℕ), k < 30 →
      (∀ i, i < k → env.pollStatus i < 4) → 4 ≤ env.pollStatus k →
      env.pollError k ≠ "" →
      pollForSeal env =
        (.sealedFailed (("Transaction failed: ") ++ env.pollError k) env.txId, k + 1)) ∧
    (∀ (env : CreateEnv) (k : ℕ), k < 30 →
      (∀ i, i < k → env.pollStatus i < 4) → 4 ≤ env.pollStatus k →
      env.pollError k = "" →
      pollForSeal env =
        (.sealedOk env.txId env.totalProposals (explorerUrl env), k + 1)) ∧
    (∀ env : CreateEnv, (∀ i, i < 30 → env.pollStatus i < 4) →
      pollForSeal env = (.sealTimeout env.txId (explorerUrl env), 30)) := by
  refine ⟨?_, ?_, ?_, ?_⟩
  · intro env
    exact pollLoop_count_le env 30 0
  · intro env k hk hbefore hseal herr
    have h := pollLoop_seals env 30 0 k hk
      (fun i hi => by simpa using hbefore i hi) (by simpa using hseal)
    simpa [pollForSeal, herr] using h
  · intro env k hk hbefore hseal herr
    have h := pollLoop_seals env 30 0 k hk
      (fun i hi => by simpa using hbefore i hi) (by simpa using hseal)
    simpa [pollForSeal, herr] using h
  · intro env hall
    have h := pollLoop_timeout env 30 0 (fun i hi => by simpa using hall i hi)
    simpa [pollForSeal] using h

/-- A sample environment whose ledger seals cleanly at the third poll. -/
def sampleSealEnv : CreateEnv where
  connected := true
  address := "f8d6e0586b0a20c7"
  signer := some ()
  balance := 10
  txId := "abc123"
  pollStatus := fun i => if i < 2 then 1 else 4
  pollError := fun _ => ""
  totalProposals := 12
  explorerBase := "https://testnet.flowdiver.io"

/-- Witness for C3: on `sampleSealEnv` the loop succeeds after exactly 3
polls with proposal id 12. -/
theorem claim_C3_witness :
    pollForSeal sampleSealEnv =
      (.sealedOk ("abc123") 12 (("https://testnet.flowdiver.io") ++ ("/transaction/") ++ ("abc123")), 3) := by
  have h := claim_C3_sealing_poll.2.2.1 sampleSealEnv 2 (by norm_num)
    (fun i hi => by
      interval_cases i <;> simp [sampleSealEnv])
    (by simp [sampleSealEnv]) (by simp [sampleSealEnv])
  simpa [sampleSealEnv, explorerUrl] using h

/-- The fixed filler sentence appended by `_generate_blockchain_summary`
(`blockchain.py` line 478); it is 63 characters long, leading space included. -/
def summaryFiller : String :=
  " Environmental impact assessment indicates significant changes."

/-- Python `str.strip()`: drop whitespace from both ends. -/
def pyStrip (s : String) : String :=
  String.mk (((s.toList.dropWhile Char.isWhitespace).reverse.dropWhile
    Char.isWhitespace).reverse)

/-- Embedding of the summarizer-success path of `_generate_blockchain_summary`
(`blockchain.py` lines 474-482): strip the model response, append the filler
once when shorter than 230 characters, truncate to 240 when longer than 240. -/
def generateBlockchainSummary (respText : String) : String :=
  let summary := pyStrip respText
  if summary.length < 230 then summary ++ summaryFiller
  else if summary.length > 240 then summary.take 240
  else summary

/-- Embedding of the fallback path of `_generate_blockchain_summary`
(`blockchain.py` lines 484-492), taken when the summarizer raises; the numeric
fields appear via their Python string renderings. -/
def fallbackSummary (parkName ndviBefore ndviAfter pm25Increase : String) : String :=
  parkName ++ (": NDVI ") ++ ndviBefore ++ ("→") ++ ndviAfter ++
    (", PM2.5 +") ++ pm25Increase ++ ("%")

/-- Counterexample to C4: on an empty summarizer response the generator
returns just the 63-character filler, far below the claimed 230-character
lower bound (and the fallback string for a typical draft is 32 characters). -/
theorem claim_C4_counterexample :
    ¬ (230 ≤ (generateBlockchainSummary ("")).length ∧
        (generateBlockchainSummary ("")).length ≤ 240) ∧
    ¬ (230 ≤ (fallbackSummary ("Park") ("0.5") ("0.3") ("75.0")).length ∧
        (fallbackSummary ("Park") ("0.5") ("0.3") ("75.0")).length ≤ 240) := by
  constructor
  · intro h
    have : (generateBlockchainSummary ("")).length = 63 := by decide
    omega
  · intro h
    have : (fallbackSummary ("Park") ("0.5") ("0.3") ("75.0")).length = 32 := by decide
    omega

/-- C4 (amended): the generator returns the stripped summarizer output
unchanged when its length already lies in [230, 240]; truncates it to its
first 240 characters when longer than 240; and when shorter than 230 appends
the fixed 63-character filler exactly once (so the result has length
`len + 63`, which lies in [230, 240] only for `len` between 167 and 177); the
fallback path returns the short templated string with no length guarantee. -/
theorem claim_C4_amended_summary_length (s : String) :
    ((pyStrip s).length < 230 →
      generateBlockchainSummary s = pyStrip s ++ summaryFiller ∧
      (generateBlockchainSummary s).length = (pyStrip s).length + 63) ∧
    (230 ≤ (pyStrip s).length → (pyStrip s).length ≤ 240 →
      generateBlockchainSummary s = pyStrip s) ∧
    (240 < (pyStrip s).length →
      generateBlockchainSummary s = (pyStrip s).take 240) := by
  refine ⟨?_, ?_, ?_⟩
  · intro h
    have he : generateBlockchainSummary s = pyStrip s ++ summaryFiller := by
      simp only [generateBlockchainSummary]
      rw [if_pos h]
    refine ⟨he, ?_⟩
    rw [he, String.length_append]
    have : summaryFiller.length = 63 := by decide
    omega
  · intro h1 h2
    simp only [generateBlockchainSummary]
    rw [if_neg (by omega), if_neg (by omega)]
  · intro h
    simp only [generateBlockchainSummary]
    rw [if_neg (by omega), if_pos (by omega)]

set_option maxRecDepth 40000 in
/-- Witness for the amended C4 at concrete inputs covering the short case
(empty response) and the in-range case (a 235-character response). -/
theorem claim_C4_witness :
    generateBlockchainSummary ("") = pyStrip ("") ++ summaryFiller ∧
    generateBlockchainSummary (String.mk (List.replicate 235 ('a'))) =
      pyStrip (String.mk (List.replicate 235 ('a'))) := by
  constructor
  · exact ((claim_C4_amended_summary_length ("")).1 (by decide)).1
  · exact (claim_C4_amended_summary_length (String.mk (List.replicate 235 ('a')))).2.1
      (by decide) (by decide)

/-- Model of the dynamically-typed objects produced by the SDK's JSON decoding
of a Cadence value.  `rawStr` is a plain Python `str` stored directly in a
fields dictionary (e.g. the struct type identifier); `intVal`/`strVal` are SDK
objects whose `.value` attribute holds an `int` (UInt64/UFix64 raw value, enum
raw value) or a `str`; `structObj` is an SDK struct carrying a `.fields`
dictionary (modelled as a lookup function, `None` meaning the key is absent);
`optSome`/`optNone` are SDK Optionals whose `.value` is the inner object or
Python `None`. -/
inductive CObj where
  | rawStr (s : String)
  | intVal (n : ℤ)
  | strVal (s : String)
  | structObj (fields : String → Option CObj)
  | optSome (inner : CObj)
  | optNone

/-- A dynamically-typed Python value as it flows through
`_parse_proposal_result`: `None`, an `int`, a `str`, or an SDK object. -/
inductive PyVal where
  | none
  | pInt (n : ℤ)
  | pStr (s : String)
  | pObj (o : CObj)

/-- Python `hasattr(obj, "value")` on the modelled objects: SDK value wrappers
and Optionals expose `.value`; plain strings and struct objects do not. -/
def hasValue : CObj → Bool
  | .rawStr _ => false
  | .intVal _ => true
  | .strVal _ => true
  | .structObj _ => false
  | .optSome _ => true
  | .optNone => true

/-- The `.value` attribute of the modelled objects (only consulted after
`hasValue`; the two valueless constructors return `none` vacuously). -/
def getValue : CObj → PyVal
  | .rawStr _ => .none
  | .intVal n => .pInt n
  | .strVal s => .pStr s
  | .structObj _ => .none
  | .optSome o => .pObj o
  | .optNone => .none

/-- The value `get_field_value` extracts from a field object
(`blockchain.py` lines 512-532): a plain string is returned as is; an object
with `.value` yields that value; otherwise the object itself is returned. -/
def fieldToPy (fld : CObj) : PyVal :=
  match fld with
  | .rawStr s => .pStr s
  | .intVal n => .pInt n
  | .strVal s => .pStr s
  | .optSome o => .pObj o
  | .optNone => .none
  | .structObj _ => .pObj fld

/-- Embedding of `get_field_value(struct, field_name)`: anything without a
`.fields` dictionary yields `None`; a missing key yields `None`. -/
def pyGetField (v : PyVal) (name : String) : PyVal :=
  match v with
  | .pObj (.structObj f) =>
    match f name with
    | Option.none => .none
    | some fld => fieldToPy fld
  | _ => .none

/-- Python truthiness of the values `_parse_proposal_result` tests: `None`,
`0` and `""` are falsy; SDK objects are truthy. -/
def pyFalsy : PyVal → Bool
  | .none => true
  | .pInt n => n == 0
  | .pStr s => s == ""
  | .pObj _ => false

/-- Python `None` test. -/
def pyIsNone : PyVal → Bool
  | .none => true
  | _ => false

/-- Python `str(x)` for the values reaching the string fields.  The rendering
of a residual SDK object (Python would print its repr) is irrelevant to every
claim; all that matters is that it is produced without raising. -/
def pyStrRepr : PyVal → String
  | .pStr s => s
  | .pInt n => toString n
  | .pObj _ => "<cadence object>"
  | .none => "None"

/-- Embedding of `str(get_field_value(...) or '')`: a falsy value yields the
empty string. -/
def pyStrOrEmpty (v : PyVal) : String :=
  if pyFalsy v then "" else pyStrRepr v

/-- Embedding of the helper `uint64_to_int` (`blockchain.py` lines 543-546):
`None` maps to 0, an `int` passes through, and `int()` on anything else
raises.  (Python would accept a string of digits; the strings stored in these
structs — type tags, names, addresses — are not numeric, so the string case is
modelled as the `ValueError` Python raises on them.) -/
def pyUint64ToInt : PyVal → Except String ℤ
  | .none => .ok 0
  | .pInt n => .ok n
  | .pStr _ => .error ("ValueError: invalid literal for int()")
  | .pObj _ => .error ("TypeError: int() argument")

/-- Embedding of the helper `ufix64_to_float` (`blockchain.py` lines 534-540):
`None` maps to 0.0, an `int` raw value is divided by 1e8, and `float()` on
anything else raises (same remark about non-numeric strings as above). -/
def pyUfix64ToFloat : PyVal → Except String ℚ
  | .none => .ok 0
  | .pInt n => .ok ((n : ℚ) / 100000000)
  | .pStr _ => .error ("ValueError: could not convert string to float")
  | .pObj _ => .error ("TypeError: float() argument")

/-- Decoded environmental data of a `ProposalRecord`. -/
structure EnvironmentalData where
  ndviBefore : ℚ
  ndviAfter : ℚ
  pm25Before : ℚ
  pm25After : ℚ
  pm25IncreasePercent : ℚ
  vegetationLossPercent : ℚ
  deriving DecidableEq, Repr

/-- Decoded demographics of a `ProposalRecord`. -/
structure DemographicsRec where
  children : ℤ
  adults : ℤ
  seniors : ℤ
  totalAffectedPopulation : ℤ
  deriving DecidableEq, Repr

/-- The application-side proposal dictionary assembled by
`_parse_proposal_result` (`blockchain.py` lines 596-608). -/
structure ProposalRecord where
  id : ℤ
  parkName : String
  parkId : String
  description : String
  yesVotes : ℤ
  noVotes : ℤ
  endDate : ℤ
  creator : String
  status : String
  environmentalData : EnvironmentalData
  demographics : DemographicsRec
  deriving DecidableEq, Repr

/-- Status-code mapping `{0: 'active', 1: 'passed', 2: 'rejected'}` with
dictionary default `'active'`. -/
def statusName (code : ℤ) : String :=
  if code = 0 then "active"
  else if code = 1 then "passed"
  else if code = 2 then "rejected"
  else "active"

/-- The status-enum unwrapping of `blockchain.py` lines 563-570: if the
extracted status value is an object exposing `.value`, use that; none of the
modelled objects exposes a `rawValue` attribute (enum payloads sit behind
`.value` or inside `.fields`), so the `elif` branch is never taken and the
value itself is used otherwise. -/
def pyStatusValue (statusEnum : PyVal) : PyVal :=
  match statusEnum with
  | .pObj o => if hasValue o then getValue o else statusEnum
  | _ => statusEnum

/-- Embedding of `int(status_value) if status_value is not None else 0`. -/
def pyStatusCode (statusEnum : PyVal) : Except String ℤ :=
  match pyStatusValue statusEnum with
  | .none => .ok 0
  | v => pyUint64ToInt v

/-- Embedding of the body of `_parse_proposal_result` acting on the unwrapped
proposal struct (`blockchain.py` lines 548-608); exceptions propagate as
`Except.error` to the surrounding `try`. -/
def parseProposalStruct (ps : PyVal) (proposalId : Option ℤ) :
    Except String ProposalRecord := do
  let pid ← match proposalId with
    | some p => Except.ok p
    | Option.none => pyUint64ToInt (pyGetField ps ("id"))
  let yesVotes ← pyUint64ToInt (pyGetField ps ("yesVotes"))
  let noVotes ← pyUint64ToInt (pyGetField ps ("noVotes"))
  let endDate ← pyUfix64ToFloat (pyGetField ps ("endDate"))
  let statusCode ← pyStatusCode (pyGetField ps ("status"))
  let envData := pyGetField ps ("environmentalData")
  let ndviBefore ← pyUfix64ToFloat (pyGetField envData ("ndviBefore"))
  let ndviAfter ← pyUfix64ToFloat (pyGetField envData ("ndviAfter"))
  let pm25Before ← pyUfix64ToFloat (pyGetField envData ("pm25Before"))
  let pm25After ← pyUfix64ToFloat (pyGetField envData ("pm25After"))
  let pm25IncreasePercent ← pyUfix64ToFloat (pyGetField envData ("pm25IncreasePercent"))
  let vegetationLossPercent ← pyUfix64ToFloat (pyGetField envData ("vegetationLossPercent"))
  let demoData := pyGetField ps ("demographics")
  let children ← pyUint64ToInt (pyGetField demoData ("children"))
  let adults ← pyUint64ToInt (pyGetField demoData ("adults"))
  let seniors ← pyUint64ToInt (pyGetField demoData ("seniors"))
  let totalAffectedPopulation ← pyUint64ToInt (pyGetField demoData ("totalAffectedPopulation"))
  Except.ok
    { id := pid
      parkName := pyStrOrEmpty (pyGetField ps ("parkName"))
      parkId := pyStrOrEmpty (pyGetField ps ("parkId"))
      description := pyStrOrEmpty (pyGetField ps ("description"))
      yesVotes := yesVotes
      noVotes := noVotes
      endDate := ratTrunc endDate
      creator := pyStrOrEmpty (pyGetField ps ("creator"))
      status := statusName statusCode
      environmentalData :=
        { ndviBefore := ndviBefore
          ndviAfter := ndviAfter
          pm25Before := pm25Before
          pm25After := pm25After
          pm25IncreasePercent := pm25IncreasePercent
          vegetationLossPercent := vegetationLossPercent }
      demographics :=
        { children := children
          adults := adults
          seniors := seniors
          totalAffectedPopulation := totalAffectedPopulation } }

/-- Embedding of `_parse_proposal_result(result, proposal_id)`
(`blockchain.py` lines 494-616): the `None`/Optional/falsiness pre-checks,
then the struct parse; the surrounding `try/except` turns any raised
exception into a `None` return. -/
def parseProposalResult (result : Option CObj) (proposalId : Option ℤ) :
    Option ProposalRecord :=
  match result with
  | Option.none => none
  | some obj =>
    if hasValue obj && pyIsNone (getValue obj) then none
    else
      let ps : PyVal := if hasValue obj then getValue obj else .pObj obj
      if pyFalsy ps then none
      else
        match parseProposalStruct ps proposalId with
        | .ok r => some r
        | .error _ => none

/-- Optional raw contents of a decoded `environmentalData` struct: `none`
means the field is absent from the fields dictionary, `some n` means a UFix64
wrapper with raw value `n` is present. -/
structure EnvOpts where
  ndviBefore : Option ℤ
  ndviAfter : Option ℤ
  pm25Before : Option ℤ
  pm25After : Option ℤ
  pm25IncreasePercent : Option ℤ
  vegetationLossPercent : Option ℤ

/-- Optional raw contents of a decoded `demographics` struct. -/
structure DemoOpts where
  children : Option ℤ
  adults : Option ℤ
  seniors : Option ℤ
  totalAffectedPopulation : Option ℤ

/-- Optional contents of a decoded proposal struct: each field may be absent
(`none`) or present with a well-typed payload; `idField` may hold any object
at all (in particular the type-tag string the codec writes there). -/
structure ProposalFieldOpts where
  idField : Option CObj
  parkName : Option String
  parkId : Option String
  description : Option String
  creator : Option String
  yesVotes : Option ℤ
  noVotes : Option ℤ
  endDate : Option ℤ
  statusRaw : Option ℤ
  environmentalData : Option EnvOpts
  demographics : Option DemoOpts

/-- Fields dictionary of an `environmentalData` struct built from `EnvOpts`. -/
def mkEnvFields (e : EnvOpts) : String → Option CObj := fun name =>
  if name = "ndviBefore" then e.ndviBefore.map CObj.intVal
  else if name = "ndviAfter" then e.ndviAfter.map CObj.intVal
  else if name = "pm25Before" then e.pm25Before.map CObj.intVal
  else if name = "pm25After" then e.pm25After.map CObj.intVal
  else if name = "pm25IncreasePercent" then e.pm25IncreasePercent.map CObj.intVal
  else if name = "vegetationLossPercent" then e.vegetationLossPercent.map CObj.intVal
  else none

/-- Fields dictionary of a `demographics` struct built from `DemoOpts`. -/
def mkDemoFields (d : DemoOpts) : String → Option CObj := fun name =>
  if name = "children" then d.children.map CObj.intVal
  else if name = "adults" then d.adults.map CObj.intVal
  else if name = "seniors" then d.seniors.map CObj.intVal
  else if name = "totalAffectedPopulation" then d.totalAffectedPopulation.map CObj.intVal
  else none

/-- Fields dictionary of a proposal struct built from `ProposalFieldOpts`. -/
def mkProposalFields (p : ProposalFieldOpts) : String → Option CObj := fun name =>
  if name = "id" then p.idField
  else if name = "parkName" then p.parkName.map CObj.strVal
  else if name = "parkId" then p.parkId.map CObj.strVal
  else if name = "description" then p.description.map CObj.strVal
  else if name = "creator" then p.creator.map CObj.strVal
  else if name = "yesVotes" then p.yesVotes.map CObj.intVal
  else if name = "noVotes" then p.noVotes.map CObj.intVal
  else if name = "endDate" then p.endDate.map CObj.intVal
  else if name = "status" then p.statusRaw.map CObj.intVal
  else if name = "environmentalData" then
    p.environmentalData.map (fun e => CObj.structObj (mkEnvFields e))
  else if name = "demographics" then
    p.demographics.map (fun d => CObj.structObj (mkDemoFields d))
  else none

/-- The `PyVal` that `get_field_value` returns for a possibly-absent UInt64 or
UFix64 field. -/
def intFieldVal : Option ℤ → PyVal
  | Option.none => .none
  | some n => .pInt n

/-- The `PyVal` that `get_field_value` returns for a possibly-absent String
field. -/
def strFieldVal : Option String → PyVal
  | Option.none => .none
  | some s => .pStr s

/-- The `PyVal` that `get_field_value` returns for a possibly-absent nested
`environmentalData` struct. -/
def envObjVal : Option EnvOpts → PyVal
  | Option.none => .none
  | some e => .pObj (.structObj (mkEnvFields e))

/-- The `PyVal` that `get_field_value` returns for a possibly-absent nested
`demographics` struct. -/
def demoObjVal : Option DemoOpts → PyVal
  | Option.none => .none
  | some d => .pObj (.structObj (mkDemoFields d))

/-- The record `_parse_proposal_result` is expected to produce from a struct
with optional fields and a caller-supplied id: absent fields become
zero-defaults (0, 0.0, `""`; absent status decodes as `"active"`). -/
def expectedRecord (p : ProposalFieldOpts) (pid : ℤ) : ProposalRecord where
  id := pid
  parkName := p.parkName.getD ("")
  parkId := p.parkId.getD ("")
  description := p.description.getD ("")
  yesVotes := p.yesVotes.getD 0
  noVotes := p.noVotes.getD 0
  endDate := ratTrunc (ufix64ToDecimal (p.endDate.getD 0))
  creator := p.creator.getD ("")
  status := statusName (p.statusRaw.getD 0)
  environmentalData :=
    { ndviBefore := ufix64ToDecimal (((p.environmentalData.bind EnvOpts.ndviBefore).getD 0))
      ndviAfter := ufix64ToDecimal (((p.environmentalData.bind EnvOpts.ndviAfter).getD 0))
      pm25Before := ufix64ToDecimal (((p.environmentalData.bind EnvOpts.pm25Before).getD 0))
      pm25After := ufix64ToDecimal (((p.environmentalData.bind EnvOpts.pm25After).getD 0))
      pm25IncreasePercent :=
        ufix64ToDecimal (((p.environmentalData.bind EnvOpts.pm25IncreasePercent).getD 0))
      vegetationLossPercent :=
        ufix64ToDecimal (((p.environmentalData.bind EnvOpts.vegetationLossPercent).getD 0)) }
  demographics :=
    { children := (p.demographics.bind DemoOpts.children).getD 0
      adults := (p.demographics.bind DemoOpts.adults).getD 0
      seniors := (p.demographics.bind DemoOpts.seniors).getD 0
      totalAffectedPopulation :=
        (p.demographics.bind DemoOpts.totalAffectedPopulation).getD 0 }

lemma ok_bind {α β : Type} (a : α) (f : α → Except String β) :
    (Except.ok a >>= f) = f a := rfl

lemma pyUint64ToInt_intFieldVal (o : Option ℤ) :
    pyUint64ToInt (intFieldVal o) = .ok (o.getD 0) := by
  cases o <;> rfl

lemma pyUfix64ToFloat_intFieldVal (o : Option ℤ) :
    pyUfix64ToFloat (intFieldVal o) = .ok (ufix64ToDecimal (o.getD 0)) := by
  cases o with
  | none =>
    simp [pyUfix64ToFloat, intFieldVal, ufix64ToDecimal]
  | some n => rfl

lemma pyStatusCode_intFieldVal (o : Option ℤ) :
    pyStatusCode (intFieldVal o) = .ok (o.getD 0) := by
  cases o <;> rfl

lemma pyStrOrEmpty_strFieldVal (o : Option String) :
    pyStrOrEmpty (strFieldVal o) = o.getD ("") := by
  cases o with
  | none => rfl
  | some s =>
    simp only [strFieldVal, pyStrOrEmpty, pyFalsy, pyStrRepr, Option.getD]
    split
    · next h => simp_all
    · rfl

lemma pyGetField_mk_parkName (p : ProposalFieldOpts) :
    pyGetField (.pObj (.structObj (mkProposalFields p))) ("parkName") =
      strFieldVal p.parkName := by
  cases h : p.parkName <;>
    simp [pyGetField, mkProposalFields, fieldToPy, strFieldVal, h]

lemma pyGetField_mk_parkId (p : ProposalFieldOpts) :
    pyGetField (.pObj (.structObj (mkProposalFields p))) ("parkId") =
      strFieldVal p.parkId := by
  cases h : p.parkId <;>
    simp [pyGetField, mkProposalFields, fieldToPy, strFieldVal, h]

lemma pyGetField_mk_description (p : ProposalFieldOpts) :
    pyGetField (.pObj (.structObj (mkProposalFields p))) ("description") =
      strFieldVal p.description := by
  cases h : p.description <;>
    simp [pyGetField, mkProposalFields, fieldToPy, strFieldVal, h]

lemma pyGetField_mk_creator (p : ProposalFieldOpts) :
    pyGetField (.pObj (.structObj (mkProposalFields p))) ("creator") =
      strFieldVal p.creator := by
  cases h : p.creator <;>
    simp [pyGetField, mkProposalFields, fieldToPy, strFieldVal, h]

lemma pyGetField_mk_yesVotes (p : ProposalFieldOpts) :
    pyGetField (.pObj (.structObj (mkProposalFields p))) ("yesVotes") =
      intFieldVal p.yesVotes := by
  cases h : p.yesVotes <;>
    simp [pyGetField, mkProposalFields, fieldToPy, intFieldVal, h]

lemma pyGetField_mk_noVotes (p : ProposalFieldOpts) :
    pyGetField (.pObj (.structObj (mkProposalFields p))) ("noVotes") =
      intFieldVal p.noVotes := by
  cases h : p.noVotes <;>
    simp [pyGetField, mkProposalFields, fieldToPy, intFieldVal, h]

lemma pyGetField_mk_endDate (p : ProposalFieldOpts) :
    pyGetField (.pObj (.structObj (mkProposalFields p))) ("endDate") =
      intFieldVal p.endDate := by
  cases h : p.endDate <;>
    simp [pyGetField, mkProposalFields, fieldToPy, intFieldVal, h]

lemma pyGetField_mk_status (p : ProposalFieldOpts) :
    pyGetField (.pObj (.structObj (mkProposalFields p))) ("status") =
      intFieldVal p.statusRaw := by
  cases h : p.statusRaw <;>
    simp [pyGetField, mkProposalFields, fieldToPy, intFieldVal, h]

lemma pyGetField_mk_env (p : ProposalFieldOpts) :
    pyGetField (.pObj (.structObj (mkProposalFields p))) ("environmentalData") =
      envObjVal p.environmentalData := by
  cases h : p.environmentalData <;>
    simp [pyGetField, mkProposalFields, fieldToPy, envObjVal, h]

lemma pyGetField_mk_demo (p : ProposalFieldOpts) :
    pyGetField (.pObj (.structObj (mkProposalFields p))) ("demographics") =
      demoObjVal p.demographics := by
  cases h : p.demographics <;>
    simp [pyGetField, mkProposalFields, fieldToPy, demoObjVal, h]

lemma pyGetField_env_ndviBefore (eo : Option EnvOpts) :
    pyGetField (envObjVal eo) ("ndviBefore") =
      intFieldVal (eo.bind EnvOpts.ndviBefore) := by
  cases eo with
  | none => rfl
  | some e =>
    cases h : e.ndviBefore <;>
      simp [envObjVal, pyGetField, mkEnvFields, fieldToPy, intFieldVal, h, Option.bind]

lemma pyGetField_env_ndviAfter (eo : Option EnvOpts) :
    pyGetField (envObjVal eo) ("ndviAfter") =
      intFieldVal (eo.bind EnvOpts.ndviAfter) := by
  cases eo with
  | none => rfl
  | some e =>
    cases h : e.ndviAfter <;>
      simp [envObjVal, pyGetField, mkEnvFields, fieldToPy, intFieldVal, h, Option.bind]

lemma pyGetField_env_pm25Before (eo : Option EnvOpts) :
    pyGetField (envObjVal eo) ("pm25Before") =
      intFieldVal (eo.bind EnvOpts.pm25Before) := by
  cases eo with
  | none => rfl
  | some e =>
    cases h : e.pm25Before <;>
      simp [envObjVal, pyGetField, mkEnvFields, fieldToPy, intFieldVal, h, Option.bind]

lemma pyGetField_env_pm25After (eo : Option EnvOpts) :
    pyGetField (envObjVal eo) ("pm25After") =
      intFieldVal (eo.bind EnvOpts.pm25After) := by
  cases eo with
  | none => rfl
  | some e =>
    cases h : e.pm25After <;>
      simp [envObjVal, pyGetField, mkEnvFields, fieldToPy, intFieldVal, h, Option.bind]

lemma pyGetField_env_pm25IncreasePercent (eo : Option EnvOpts) :
    pyGetField (envObjVal eo) ("pm25IncreasePercent") =
      intFieldVal (eo.bind EnvOpts.pm25IncreasePercent) := by
  cases eo with
  | none => rfl
  | some e =>
    cases h : e.pm25IncreasePercent <;>
      simp [envObjVal, pyGetField, mkEnvFields, fieldToPy, intFieldVal, h, Option.bind]

lemma pyGetField_env_vegetationLossPercent (eo : Option EnvOpts) :
    pyGetField (envObjVal eo) ("vegetationLossPercent") =
      intFieldVal (eo.bind EnvOpts.vegetationLossPercent) := by
  cases eo with
  | none => rfl
  | some e =>
    cases h : e.vegetationLossPercent <;>
      simp [envObjVal, pyGetField, mkEnvFields, fieldToPy, intFieldVal, h, Option.bind]

lemma pyGetField_demo_children (dm : Option DemoOpts) :
    pyGetField (demoObjVal dm) ("children") =
      intFieldVal (dm.bind DemoOpts.children) := by
  cases dm with
  | none => rfl
  | some d =>
    cases h : d.children <;>
      simp [demoObjVal, pyGetField, mkDemoFields, fieldToPy, intFieldVal, h, Option.bind]

lemma pyGetField_demo_adults (dm : Option DemoOpts) :
    pyGetField (demoObjVal dm) ("adults") =
      intFieldVal (dm.bind DemoOpts.adults) := by
  cases dm with
  | none => rfl
  | some d =>
    cases h : d.adults <;>
      simp [demoObjVal, pyGetField, mkDemoFields, fieldToPy, intFieldVal, h, Option.bind]

lemma pyGetField_demo_seniors (dm : Option DemoOpts) :
    pyGetField (demoObjVal dm) ("seniors") =
      intFieldVal (dm.bind DemoOpts.seniors) := by
  cases dm with
  | none => rfl
  | some d =>
    cases h : d.seniors <;>
      simp [demoObjVal, pyGetField, mkDemoFields, fieldToPy, intFieldVal, h, Option.bind]

lemma pyGetField_demo_totalAffectedPopulation (dm : Option DemoOpts) :
    pyGetField (demoObjVal dm) ("totalAffectedPopulation") =
      intFieldVal (dm.bind DemoOpts.totalAffectedPopulation) := by
  cases dm with
  | none => rfl
  | some d =>
    cases h : d.totalAffectedPopulation <;>
      simp [demoObjVal, pyGetField, mkDemoFields, fieldToPy, intFieldVal, h, Option.bind]

/-- Parsing a struct from the optional-field family with a caller-supplied id
succeeds and produces exactly the zero-defaulted record. -/
lemma parseProposalStruct_mk (p : ProposalFieldOpts) (pid : ℤ) :
    parseProposalStruct (.pObj (.structObj (mkProposalFields p))) (some pid) =
      .ok (expectedRecord p pid) := by
  simp only [parseProposalStruct,
    pyGetField_mk_parkName, pyGetField_mk_parkId, pyGetField_mk_description,
    pyGetField_mk_creator, pyGetField_mk_yesVotes, pyGetField_mk_noVotes,
    pyGetField_mk_endDate, pyGetField_mk_status, pyGetField_mk_env,
    pyGetField_mk_demo,
    pyGetField_env_ndviBefore, pyGetField_env_ndviAfter,
    pyGetField_env_pm25Before, pyGetField_env_pm25After,
    pyGetField_env_pm25IncreasePercent, pyGetField_env_vegetationLossPercent,
    pyGetField_demo_children, pyGetField_demo_adults, pyGetField_demo_seniors,
    pyGetField_demo_totalAffectedPopulation,
    pyUint64ToInt_intFieldVal, pyUfix64ToFloat_intFieldVal,
    pyStatusCode_intFieldVal, pyStrOrEmpty_strFieldVal, ok_bind]
  rfl

/-- Parsing a result wrapping a struct from the optional-field family with a
caller-supplied id returns the zero-defaulted record. -/
lemma parseProposalResult_mk (p : ProposalFieldOpts) (pid : ℤ) :
    parseProposalResult (some (.optSome (.structObj (mkProposalFields p)))) (some pid) =
      some (expectedRecord p pid) := by
  simp [parseProposalResult, hasValue, getValue, pyIsNone, pyFalsy,
    parseProposalStruct_mk]

/-- Whenever the struct-level parse succeeds with a caller-supplied id, the
produced record carries exactly that id (the struct's own `id` field is never
consulted on this path). -/
lemma parseProposalStruct_id (ps : PyVal) (pid : ℤ) (r : ProposalRecord)
    (h : parseProposalStruct ps (some pid) = .ok r) : r.id = pid := by
  simp only [parseProposalStruct, Bind.bind, Except.bind] at h
  iterate 16 (all_goals (try split at h))
  all_goals
    first
    | exact Except.noConfusion h
    | (injection h with h2
       rw [← h2])

/-- Whenever `_parse_proposal_result` succeeds with a caller-supplied id, the
produced record carries exactly that id. -/
lemma parseProposalResult_id (result : Option CObj) (pid : ℤ) (r : ProposalRecord)
    (h : parseProposalResult result (some pid) = some r) : r.id = pid := by
  cases result with
  | none => simp [parseProposalResult] at h
  | some obj =>
    simp only [parseProposalResult] at h
    by_cases h1 : (hasValue obj && pyIsNone (getValue obj)) = true
    · rw [if_pos h1] at h
      exact Option.noConfusion h
    · rw [if_neg h1] at h
      by_cases h2 : pyFalsy (if hasValue obj then getValue obj else PyVal.pObj obj) = true
      · rw [if_pos h2] at h
        exact Option.noConfusion h
      · rw [if_neg h2] at h
        rcases hok : parseProposalStruct
            (if hasValue obj then getValue obj else PyVal.pObj obj) (some pid) with e | r'
        · rw [hok] at h
          exact Option.noConfusion h
        · rw [hok] at h
          injection h with h3
          subst h3
          exact parseProposalStruct_id _ _ _ hok

/-- A concrete, fully-populated proposal struct whose `id` field may hold any
object at all. -/
def sampleC6Opts (idF : CObj) : ProposalFieldOpts where
  idField := some idF
  parkName := some ("Rock Creek Park")
  parkId := some ("rock-creek-park")
  description := some ("NDVI 0.70 to 0.20")
  creator := some ("0xf8d6e0586b0a20c7")
  yesVotes := some 4
  noVotes := some 2
  endDate := some 175000000000000000
  statusRaw := some 0
  environmentalData :=
    some ⟨some 70000000, some 20000000, some 800000000, some 1400000000,
      some 7500000000, some 5000000000⟩
  demographics := some ⟨some 1200, some 3000, some 800, some 5000⟩

/-- C6: Id override.  (i) For every ledger result and caller-supplied id, a
successfully decoded `ProposalRecord` carries the caller-supplied id; (ii) on
a concrete fully-populated struct, decoding succeeds and yields the record
with the supplied id regardless of what object sits in the struct's own `id`
field — in particular a non-numeric type-tag string there cannot make the
decoder crash, since that field is never read on this path. -/
theorem claim_C6_id_override :
    (∀ (result : Option CObj) (pid : ℤ) (r : ProposalRecord),
        parseProposalResult result (some pid) = some r → r.id = pid) ∧
    (∀ (idF : CObj) (pid : ℤ),
        parseProposalResult
          (some (.optSome (.structObj (mkProposalFields (sampleC6Opts idF)))))
          (some pid) = some (expectedRecord (sampleC6Opts idF) pid)) := by
  constructor
  · intro result pid r h
    exact parseProposalResult_id result pid r h
  · intro idF pid
    exact parseProposalResult_mk (sampleC6Opts idF) pid

/-- Witness for C6: with the type-tag string "A.0x01.CommunityVoting.Proposal"
in the struct's `id` field and caller-supplied id 5, decoding succeeds and
the record's id is 5. -/
theorem claim_C6_witness :
    parseProposalResult
        (some (.optSome (.structObj (mkProposalFields
          (sampleC6Opts (.rawStr ("A.0x01.CommunityVoting.Proposal")))))))
        (some 5) =
      some (expectedRecord (sampleC6Opts (.rawStr ("A.0x01.CommunityVoting.Proposal"))) 5) ∧
    (expectedRecord (sampleC6Opts (.rawStr ("A.0x01.CommunityVoting.Proposal"))) 5).id = 5 := by
  have h2 := claim_C6_id_override.2 (.rawStr ("A.0x01.CommunityVoting.Proposal")) 5
  exact ⟨h2, claim_C6_id_override.1 _ 5 _ h2⟩

/-- C8: Tolerant read-path decoding.  Over the whole family of proposal
structs with arbitrary subsets of fields missing (strings, vote counts,
endDate, status, the nested environmentalData and demographics structs, and
any of their inner fields), parsing with a caller-supplied id succeeds —
nothing is raised or propagated — and every absent field decodes to its
zero-default: 0 for counts, 0.0 for fixed-point values, `""` for strings, and
status `"active"` when the status field is absent
(`statusName ((none : Option ℤ).getD 0) = "active"`). -/
theorem claim_C8_tolerant_decoding (p : ProposalFieldOpts) (pid : ℤ) :
    parseProposalResult (some (.optSome (.structObj (mkProposalFields p))))
        (some pid) = some (expectedRecord p pid) ∧
    statusName ((Option.none : Option ℤ).getD 0) = "active" := by
  exact ⟨parseProposalResult_mk p pid, rfl⟩

/-- Whether the first character list is a leading segment of the second. -/
def listStartsWith : List Char → List Char → Bool
  | [], _ => true
  | _ :: _, [] => false
  | a :: as, b :: bs => a == b && listStartsWith as bs

/-- Whether the first character list occurs contiguously in the second
(Python's `in` on strings). -/
def listContainsSub : List Char → List Char → Bool
  | needle, [] => listStartsWith needle []
  | needle, c :: tail => listStartsWith needle (c :: tail) || listContainsSub needle tail

/-- The rate-limit test of `get_proposal` (`blockchain.py` line 368):
`"rate limited" in str(e).lower()`. -/
def containsRateLimited (msg : String) : Bool :=
  listContainsSub (("rate limited").toList) (msg.toList.map Char.toLower)

/-- What one successful loop body of `get_proposal` returns
(`blockchain.py` lines 356-364): a truthy script result is decoded and
parsed with the caller-supplied id; a falsy one returns `None`. -/
def getProposalBody (payload : Option CObj) (pid : ℤ) : Option ProposalRecord :=
  match payload with
  | some c => parseProposalResult (some c) (some pid)
  | none => none

/-- Embedding of the retry loop of `get_proposal` (`blockchain.py` lines
329-377): `for attempt in range(3)` fuel-translated with
`remaining = 3 - attempt`.  `net attempt` is the outcome of the attempt's
network interaction (`Except.error` models a raised exception, whose message
is matched against the rate-limit marker).  The second component lists the
sleeps taken: the current `retry_delay` is slept before a retry, then
doubled. -/
def getProposalLoop (net : ℕ → Except String (Option CObj)) (pid : ℤ) :
    ℕ → ℕ → ℕ → Option ProposalRecord × List ℕ
  | _, _, 0 => (none, [])
  | attempt, delay, remaining + 1 =>
    match net attempt with
    | .ok payload => (getProposalBody payload pid, [])
    | .error msg =>
      if containsRateLimited msg ∧ attempt < 3 - 1 then
        let r := getProposalLoop net pid (attempt + 1) (delay * 2) remaining
        (r.1, delay :: r.2)
      else (none, [])

/-- The loop as entered by the source: attempt 0, `retry_delay = 2`,
`max_retries = 3`. -/
def getProposal (net : ℕ → Except String (Option CObj)) (pid : ℤ) :
    Option ProposalRecord × List ℕ :=
  getProposalLoop net pid 0 2 3

/-- The sleeps taken before the j-th attempt: 2 s, then 4 s. -/
def retrySleeps (j : ℕ) : List ℕ :=
  (List.range j).map (fun i => 2 * 2 ^ i)

/-- C7: Rate-limit-only retry.  With `net i` the outcome of attempt `i`:
(i) if the first `j ≤ 2` attempts raise rate-limit errors and attempt `j`
succeeds, the call returns that attempt's body result after sleeping
2 s, then 4 s (doubling backoff) before the retries; (ii) if, after `j`
rate-limit errors, attempt `j` raises an error NOT matching the marker, the
call returns `None` immediately with no further attempt and no further
sleep; (iii) if all 3 attempts raise rate-limit errors, the call returns
`None` after the two backoff sleeps — 3 attempts in total. -/
theorem claim_C7_rate_limit_retry :
    (∀ (net : ℕ → Except String (Option CObj)) (pid : ℤ) (j : ℕ)
        (payload : Option CObj), j < 3 →
      (∀ i, i < j → ∃ m, net i = .error m ∧ containsRateLimited m = true) →
      net j = .ok payload →
      getProposal net pid = (getProposalBody payload pid, retrySleeps j)) ∧
    (∀ (net : ℕ → Except String (Option CObj)) (pid : ℤ) (j : ℕ) (m : String),
        j < 3 →
      (∀ i, i < j → ∃ m2, net i = .error m2 ∧ containsRateLimited m2 = true) →
      net j = .error m → containsRateLimited m = false →
      getProposal net pid = (none, retrySleeps j)) ∧
    (∀ (net : ℕ → Except String (Option CObj)) (pid : ℤ),
      (∀ i, i < 3 → ∃ m, net i = .error m ∧ containsRateLimited m = true) →
      getProposal net pid = (none, [2, 4])) := by
  refine ⟨?_, ?_, ?_⟩
  · intro net pid j payload hj hbefore hok
    interval_cases j
    · simp [getProposal, getProposalLoop, hok, retrySleeps]
    · obtain ⟨m0, he0, hm0⟩ := hbefore 0 (by norm_num)
      simp [getProposal, getProposalLoop, he0, hm0, hok, retrySleeps,
        List.range_succ]
    · obtain ⟨m0, he0, hm0⟩ := hbefore 0 (by norm_num)
      obtain ⟨m1, he1, hm1⟩ := hbefore 1 (by norm_num)
      simp [getProposal, getProposalLoop, he0, hm0, he1, hm1, hok, retrySleeps,
        List.range_succ]
  · intro net pid j m hj hbefore herr hmarker
    interval_cases j
    · simp [getProposal, getProposalLoop, herr, hmarker, retrySleeps]
    · obtain ⟨m0, he0, hm0⟩ := hbefore 0 (by norm_num)
      simp [getProposal, getProposalLoop, he0, hm0, herr, hmarker, retrySleeps,
        List.range_succ]
    · obtain ⟨m0, he0, hm0⟩ := hbefore 0 (by norm_num)
      obtain ⟨m1, he1, hm1⟩ := hbefore 1 (by norm_num)
      simp [getProposal, getProposalLoop, he0, hm0, he1, hm1, herr, hmarker,
        retrySleeps, List.range_succ]
  · intro net pid hall
    obtain ⟨m0, he0, hm0⟩ := hall 0 (by norm_num)
    obtain ⟨m1, he1, hm1⟩ := hall 1 (by norm_num)
    obtain ⟨m2, he2, hm2⟩ := hall 2 (by norm_num)
    simp [getProposal, getProposalLoop, he0, hm0, he1, hm1, he2, hm2]

/-- A network trace raising one rate-limited error and then succeeding with an
empty ledger answer. -/
def sampleNet : ℕ → Except String (Option CObj) :=
  fun i => if i = 0 then .error ("HTTP 429: Rate Limited") else .ok none

/-- Witness for C7: on `sampleNet` the call retries once (sleeping 2 s) and
returns the second attempt's `None` body result. -/
theorem claim_C7_witness :
    getProposal sampleNet 1 = (none, [2]) := by
  have h := claim_C7_rate_limit_retry.1 sampleNet 1 1 none (by norm_num)
    (fun i hi => by
      interval_cases i
      exact ⟨"HTTP 429: Rate Limited", rfl, by decide⟩)
    (by rfl)
  simpa [getProposalBody, retrySleeps] using h

/-- Python truthiness of a field object tested by
`if end_date_field and ...` in the sweeper: SDK objects are truthy, a plain
string is falsy exactly when empty. -/
def cobjTruthy : CObj → Bool
  | .rawStr s => !(s == "")
  | _ => true

/-- Python `float(x)` on the values a `.value` attribute can hold in this
model: an `int` converts, `None` and objects raise, and the non-numeric
strings appearing in these structs raise `ValueError` (Python would convert a
string of digits, but no UFix64 field stores one). -/
def pyFloat : PyVal → Except String ℚ
  | .pInt n => .ok (n : ℚ)
  | .pStr _ => .error ("ValueError: could not convert string to float")
  | .pObj _ => .error ("TypeError: float() argument")
  | .none => .error ("TypeError: float() argument")

/-- Environment a sweep runs against: `details id` is what
`get_proposal_details(id)` returns (`none` modelling its `None` on failure),
`closeOk id` is whether the close transaction issued by `close_proposal(id)`
reports success. -/
structure SweepEnv where
  details : ℕ → Option CObj
  closeOk : ℕ → Bool

/-- The sweep counters of `close_all_active_proposals`, together with the
list of proposal ids for which a close transaction was issued. -/
structure SweepCounts where
  closed : ℕ
  skipped : ℕ
  failed : ℕ
  closeAttempts : List ℕ
  deriving DecidableEq, Repr

/-- Embedding of one loop iteration of `close_all_active_proposals`
(`close_proposals.py` lines 227-266): fetch details (`None` → failed),
unwrap the Optional, require a `.fields` dictionary (else failed), look up
`endDate` (absent, falsy or valueless → failed), convert its `.value` with
`float(...)` (an exception propagates — the loop body has no `try`), divide
by 1e8, and compare with `now`: strictly past → issue the close transaction
and count closed/failed by its outcome; otherwise count skipped. -/
def sweepStep (env : SweepEnv) (now : ℚ) (c : SweepCounts) (id : ℕ) :
    Except String SweepCounts :=
  match env.details id with
  | Option.none => Except.ok { c with failed := c.failed + 1 }
  | some p =>
    match (if hasValue p then getValue p else PyVal.pObj p) with
    | .pObj (.structObj f) =>
      match f ("endDate") with
      | Option.none => Except.ok { c with failed := c.failed + 1 }
      | some fld =>
        if cobjTruthy fld && hasValue fld then
          match pyFloat (getValue fld) with
          | .error e => .error e
          | .ok v =>
            let endDate := v / 100000000
            if now > endDate then
              if env.closeOk id then
                .ok { c with closed := c.closed + 1,
                             closeAttempts := c.closeAttempts ++ [id] }
              else
                .ok { c with failed := c.failed + 1,
                             closeAttempts := c.closeAttempts ++ [id] }
            else .ok { c with skipped := c.skipped + 1 }
        else Except.ok { c with failed := c.failed + 1 }
    | _ => Except.ok { c with failed := c.failed + 1 }

/-- The sweep over a list of active proposal ids, threading the counters. -/
def sweepGo (env : SweepEnv) (now : ℚ) : List ℕ → SweepCounts → Except String SweepCounts
  | [], c => .ok c
  | id :: rest, c =>
    match sweepStep env now c id with
    | .error e => .error e
    | .ok c2 => sweepGo env now rest c2

/-- Embedding of `close_all_active_proposals` (`close_proposals.py` lines
210-275) given the fetched list of active ids: all counters start at zero
(an empty id list short-circuits with zero counts in the source, which
coincides with the fold). -/
def closeAllActiveProposals (env : SweepEnv) (now : ℚ) (ids : List ℕ) :
    Except String SweepCounts :=
  sweepGo env now ids ⟨0, 0, 0, []⟩

/-- Shape hypothesis under which an id's iteration cannot raise: whenever the
fetched struct has a truthy `endDate` field exposing `.value`, that value is
an `int` (raw UFix64), as every ledger response stores it. -/
def stepSafe (env : SweepEnv) (id : ℕ) : Prop :=
  ∀ p f fld, env.details id = some p →
    (if hasValue p then getValue p else PyVal.pObj p) = PyVal.pObj (.structObj f) →
    f ("endDate") = some fld →
    (cobjTruthy fld && hasValue fld) = true →
    ∃ n : ℤ, getValue fld = .pInt n

/-- A safe step always succeeds and increments exactly one of the three
counters. -/
lemma sweepStep_safe_ok (env : SweepEnv) (now : ℚ) (id : ℕ)
    (hsafe : stepSafe env id) (c : SweepCounts) :
    ∃ c2, sweepStep env now c id = .ok c2 ∧
      c2.closed + c2.skipped + c2.failed = c.closed + c.skipped + c.failed + 1 := by
  cases hd : env.details id with
  | none =>
    refine ⟨{ c with failed := c.failed + 1 }, ?_, by simp; omega⟩
    simp [sweepStep, hd]
  | some p =>
    cases hps : (if hasValue p then getValue p else PyVal.pObj p) with
    | pObj o =>
      cases o with
      | structObj f =>
        cases hf : f ("endDate") with
        | none =>
          refine ⟨{ c with failed := c.failed + 1 }, ?_, by simp; omega⟩
          simp [sweepStep, hd, hps, hf]
        | some fld =>
          by_cases htv : (cobjTruthy fld && hasValue fld) = true
          · obtain ⟨n, hn⟩ := hsafe p f fld hd hps hf htv
            by_cases hnow : now > (n : ℚ) / 100000000
            · by_cases hclose : env.closeOk id = true
              · refine ⟨{ c with
                    closed := c.closed + 1
                    closeAttempts := c.closeAttempts ++ [id] }, ?_, by simp; omega⟩
                simp [sweepStep, hd, hps, hf, htv, hn, pyFloat, hnow, hclose]
              · refine ⟨{ c with
                    failed := c.failed + 1
                    closeAttempts := c.closeAttempts ++ [id] }, ?_, by simp; omega⟩
                simp [sweepStep, hd, hps, hf, htv, hn, pyFloat, hnow, hclose]
            · refine ⟨{ c with skipped := c.skipped + 1 }, ?_, by simp; omega⟩
              simp [sweepStep, hd, hps, hf, htv, hn, pyFloat, hnow]
          · refine ⟨{ c with failed := c.failed + 1 }, ?_, by simp; omega⟩
            simp [sweepStep, hd, hps, hf, htv]
      | rawStr s =>
        refine ⟨{ c with failed := c.failed + 1 }, ?_, by simp; omega⟩
        simp [sweepStep, hd, hps]
      | intVal n =>
        refine ⟨{ c with failed := c.failed + 1 }, ?_, by simp; omega⟩
        simp [sweepStep, hd, hps]
      | strVal s =>
        refine ⟨{ c with failed := c.failed + 1 }, ?_, by simp; omega⟩
        simp [sweepStep, hd, hps]
      | optSome o2 =>
        refine ⟨{ c with failed := c.failed + 1 }, ?_, by simp; omega⟩
        simp [sweepStep, hd, hps]
      | optNone =>
        refine ⟨{ c with failed := c.failed + 1 }, ?_, by simp; omega⟩
        simp [sweepStep, hd, hps]
    | none =>
      refine ⟨{ c with failed := c.failed + 1 }, ?_, by simp; omega⟩
      simp [sweepStep, hd, hps]
    | pInt n =>
      refine ⟨{ c with failed := c.failed + 1 }, ?_, by simp; omega⟩
      simp [sweepStep, hd, hps]
    | pStr s2 =>
      refine ⟨{ c with failed := c.failed + 1 }, ?_, by simp; omega⟩
      simp [sweepStep, hd, hps]

/-- Over safe ids the sweep succeeds and the counters sum to the starting sum
plus the number of ids. -/
lemma sweepGo_sum (env : SweepEnv) (now : ℚ) :
    ∀ (ids : List ℕ) (c : SweepCounts), (∀ id ∈ ids, stepSafe env id) →
    ∃ r, sweepGo env now ids c = .ok r ∧
      r.closed + r.skipped + r.failed =
        c.closed + c.skipped + c.failed + ids.length := by
  intro ids
  induction ids with
  | nil => intro c _; exact ⟨c, rfl, by simp⟩
  | cons id rest ih =>
    intro c hsafe
    obtain ⟨c2, hstep, hsum⟩ :=
      sweepStep_safe_ok env now id (hsafe id (by simp)) c
    obtain ⟨r, hgo, hsum2⟩ := ih c2 (fun i hi => hsafe i (by simp [hi]))
    refine ⟨r, ?_, ?_⟩
    · simp only [sweepGo, hstep, hgo]
    · rw [hsum2, hsum]
      simp [List.length_cons]
      omega

/-- C5: Sweep accounting.  (i) Over any list of active ids (whose well-typed
ledger answers satisfy `stepSafe`), the sweep completes and
`closed + skipped + failed` equals the number of ids — each id is counted
exactly once; (ii) an id whose details cannot be fetched increments `failed`
only and the sweep continues (the step returns normally); (iii) an id whose
fetched struct has no extractable `endDate` increments `failed` only;
(iv) an id whose `endDate` is strictly in the past triggers a close
transaction (the id is appended to `closeAttempts`) whose success increments
`closed` and whose failure increments `failed`; (v) an id whose `endDate` has
not yet passed increments `skipped` and issues no close transaction
(`closeAttempts` unchanged). -/
theorem claim_C5_sweep_accounting :
    (∀ (env : SweepEnv) (now : ℚ) (ids : List ℕ),
      (∀ id ∈ ids, stepSafe env id) →
      ∃ r, closeAllActiveProposals env now ids = .ok r ∧
        r.closed + r.skipped + r.failed = ids.length) ∧
    (∀ (env : SweepEnv) (now : ℚ) (c : SweepCounts) (id : ℕ),
      env.details id = none →
      sweepStep env now c id = .ok { c with failed := c.failed + 1 }) ∧
    (∀ (env : SweepEnv) (now : ℚ) (c : SweepCounts) (id : ℕ) (p : CObj)
        (f : String → Option CObj),
      env.details id = some p →
      (if hasValue p then getValue p else PyVal.pObj p) = PyVal.pObj (.structObj f) →
      f ("endDate") = none →
      sweepStep env now c id = .ok { c with failed := c.failed + 1 }) ∧
    (∀ (env : SweepEnv) (now : ℚ) (c : SweepCounts) (id : ℕ) (p : CObj)
        (f : String → Option CObj) (fld : CObj) (n : ℤ),
      env.details id = some p →
      (if hasValue p then getValue p else PyVal.pObj p) = PyVal.pObj (.structObj f) →
      f ("endDate") = some fld →
      (cobjTruthy fld && hasValue fld) = true →
      getValue fld = .pInt n →
      now > (n : ℚ) / 100000000 →
      sweepStep env now c id =
        .ok (if env.closeOk id then
          { c with closed := c.closed + 1, closeAttempts := c.closeAttempts ++ [id] }
        else
          { c with failed := c.failed + 1, closeAttempts := c.closeAttempts ++ [id] })) ∧
    (∀ (env : SweepEnv) (now : ℚ) (c : SweepCounts) (id : ℕ) (p : CObj)
        (f : String → Option CObj) (fld : CObj) (n : ℤ),
      env.details id = some p →
      (if hasValue p then getValue p else PyVal.pObj p) = PyVal.pObj (.structObj f) →
      f ("endDate") = some fld →
      (cobjTruthy fld && hasValue fld) = true →
      getValue fld = .pInt n →
      ¬ now > (n : ℚ) / 100000000 →
      sweepStep env now c id = .ok { c with skipped := c.skipped + 1 }) := by
  refine ⟨?_, ?_, ?_, ?_, ?_⟩
  · intro env now ids hsafe
    obtain ⟨r, hgo, hsum⟩ := sweepGo_sum env now ids ⟨0, 0, 0, []⟩ hsafe
    exact ⟨r, hgo, by simpa using hsum⟩
  · intro env now c id hd
    simp [sweepStep, hd]
  · intro env now c id p f hd hps hf
    simp [sweepStep, hd, hps, hf]
  · intro env now c id p f fld n hd hps hf htv hn hnow
    by_cases hclose : env.closeOk id = true <;>
      simp [sweepStep, hd, hps, hf, htv, hn, pyFloat, hnow, hclose]
  · intro env now c id p f fld n hd hps hf htv hn hnow
    simp [sweepStep, hd, hps, hf, htv, hn, pyFloat, hnow]

/-- The three-proposal scenario: proposal 1 expired (endDate 1000), proposal
2 still open (endDate 3000000), proposal 3 fails to fetch; every close
transaction succeeds. -/
def sweepSampleEnv : SweepEnv where
  details := fun id =>
    if id = 1 then
      some (.optSome (.structObj (fun name =>
        if name = "endDate" then some (.intVal 100000000000) else none)))
    else if id = 2 then
      some (.optSome (.structObj (fun name =>
        if name = "endDate" then some (.intVal 300000000000000) else none)))
    else none
  closeOk := fun _ => true

lemma sweepSampleEnv_safe : ∀ id ∈ [1, 2, 3], stepSafe sweepSampleEnv id := by
  intro id hid
  intro p f fld hd hps hf htv
  fin_cases hid
  · simp only [sweepSampleEnv, if_pos rfl] at hd
    injection hd with hd2
    subst hd2
    simp only [hasValue, getValue, if_pos rfl] at hps
    injection hps with hps2
    injection hps2 with hps3
    subst hps3
    simp at hf
    subst hf
    exact ⟨100000000000, rfl⟩
  · simp only [sweepSampleEnv] at hd
    simp at hd
    subst hd
    simp only [hasValue, getValue, if_pos rfl] at hps
    injection hps with hps2
    injection hps2 with hps3
    subst hps3
    simp at hf
    subst hf
    exact ⟨300000000000000, rfl⟩
  · simp [sweepSampleEnv] at hd

/-- Witness for C5: the sweep over the three-proposal scenario at time 2000
completes with `closed + skipped + failed = 3` (and by direct evaluation the
counts are closed 1, skipped 1, failed 1 with the single close issued for
proposal 1). -/
theorem claim_C5_witness :
    (∃ r, closeAllActiveProposals sweepSampleEnv 2000 [1, 2, 3] = .ok r ∧
      r.closed + r.skipped + r.failed = 3) ∧
    closeAllActiveProposals sweepSampleEnv 2000 [1, 2, 3] =
      .ok ⟨1, 1, 1, [1]⟩ := by
  constructor
  · exact claim_C5_sweep_accounting.1 sweepSampleEnv 2000 [1, 2, 3] sweepSampleEnv_safe
  · norm_num [closeAllActiveProposals, sweepGo, sweepStep, sweepSampleEnv,
      hasValue, getValue, cobjTruthy, pyFloat]

/-- Modelled from the spec: construction of the SDK's `InMemorySigner`, which
is external to this repository.  Per the spec's signing model (§4.2, "fails
with `SigningError` if no private key is configured"), constructing the
signer from an absent key raises rather than producing a signer. -/
def inMemorySigner (privateKeyHex : Option String) : Except String Unit :=
  match privateKeyHex with
  | some _ => .ok ()
  | none => .error ("SigningError: no private key configured")

/-- Embedding of `ProposalCloser.__init__` (`close_proposals.py` lines
22-53): the signer is constructed unconditionally from the configured key —
there is no missing-key guard and no configuration-error result anywhere on
the close path; an exception from the constructor propagates out of
`__init__`. -/
def proposalCloserInit (privateKeyHex : Option String) : Except String Unit :=
  inMemorySigner privateKeyHex

/-- Counterexample to C9: with no private key configured, constructing the
proposal closer raises (the exception of the unconditional signer
construction escapes `__init__`); the close write path therefore does not
fail closed with a configuration-error result — contrary to the claim, which
asserts this behaviour for every write operation. -/
theorem claim_C9_counterexample :
    proposalCloserInit none =
      Except.error ("SigningError: no private key configured") ∧
    proposalCloserInit none ≠ Except.ok () := by
  exact ⟨rfl, by simp [proposalCloserInit, inMemorySigner]⟩

/-- C9 (amended): proposal creation fails closed — when connected but the
address or signer is missing, `create_proposal_on_blockchain` returns the
"Flow account not configured" error result, performs no poll and submits
nothing; proposal closing, by contrast, has no configuration guard: the
closer builds its signer unconditionally in `__init__`, so a missing private
key surfaces as an exception at construction time, not as a
configuration-error result. -/
theorem claim_C9_amended_fail_closed :
    (∀ env : CreateEnv, env.connected = true →
      (env.address = "" ∨ env.signer = none) →
      createProposalOnBlockchain env =
        ⟨.notConfigured, 0, false⟩) ∧
    proposalCloserInit none =
      Except.error ("SigningError: no private key configured") := by
  constructor
  · intro env hconn hcfg
    simp [createProposalOnBlockchain, hconn, hcfg]
  · rfl

/-- Witness for the amended C9: a connected environment with no signer. -/
theorem claim_C9_witness :
    createProposalOnBlockchain
      { connected := true
        address := "f8d6e0586b0a20c7"
        signer := none
        balance := 10
        txId := "abc123"
        pollStatus := fun _ => 4
        pollError := fun _ => ""
        totalProposals := 3
        explorerBase := "https://testnet.flowdiver.io" } =
      ⟨.notConfigured, 0, false⟩ := by
  exact claim_C9_amended_fail_closed.1 _ rfl (Or.inr rfl)

/-- The demographics sub-dictionary of a draft's analysis data. -/
structure DraftDemographics where
  kids : Option ℤ
  adults : Option ℤ
  seniors : Option ℤ

/-- The analysis data carried by a submitted draft; every field may be absent
(`dict.get` with default 0 / `{}` in the source). -/
structure AnalysisData where
  ndviBefore : Option ℚ
  ndviAfter : Option ℚ
  pm25Before : Option ℚ
  pm25After : Option ℚ
  pm25IncreasePercent : Option ℚ
  vegetationLossPercent : Option ℚ
  demographics : Option DraftDemographics
  affectedPopulation10MinWalk : Option ℤ

/-- The draft fields feeding the transaction arguments. -/
structure ProposalDraft where
  parkName : String
  parkId : String
  analysisData : AnalysisData

/-- A typed Cadence transaction argument. -/
inductive CadenceArg where
  | str (s : String)
  | ufix64 (raw : ℤ)
  | uint64 (n : ℤ)
  | address (a : String)
  deriving DecidableEq, Repr

/-- Embedding of the argument preparation of `create_proposal_on_blockchain`
(`blockchain.py` lines 137-149 and 253-268): the environmental metrics are
read with default 0, vegetation loss is recomputed as
`(ndvi_before - ndvi_after) * 100` when both NDVI values are truthy
(non-zero) and 0 otherwise — the draft's own `vegetationLossPercent` is never
read — and each value is encoded positionally, fixed-point ones via
`int(x * 1e8)`. -/
def prepareTxArguments (d : ProposalDraft) (endTimestamp : ℚ)
    (description : String) (accountAddress : String) : List CadenceArg :=
  let a := d.analysisData
  let ndviBeforeV := a.ndviBefore.getD 0
  let ndviAfterV := a.ndviAfter.getD 0
  let pm25BeforeV := a.pm25Before.getD 0
  let pm25AfterV := a.pm25After.getD 0
  let pm25IncreaseV := a.pm25IncreasePercent.getD 0
  let vegetationLossV :=
    if ndviBeforeV ≠ 0 ∧ ndviAfterV ≠ 0 then (ndviBeforeV - ndviAfterV) * 100 else 0
  let childrenV := (a.demographics.bind DraftDemographics.kids).getD 0
  let adultsV := (a.demographics.bind DraftDemographics.adults).getD 0
  let seniorsV := (a.demographics.bind DraftDemographics.seniors).getD 0
  let totalAffectedV := a.affectedPopulation10MinWalk.getD 0
  [ .str d.parkName,
    .str d.parkId,
    .str description,
    .ufix64 (decimalToUfix64 endTimestamp),
    .ufix64 (decimalToUfix64 ndviBeforeV),
    .ufix64 (decimalToUfix64 ndviAfterV),
    .ufix64 (decimalToUfix64 pm25BeforeV),
    .ufix64 (decimalToUfix64 pm25AfterV),
    .ufix64 (decimalToUfix64 pm25IncreaseV),
    .ufix64 (decimalToUfix64 vegetationLossV),
    .uint64 childrenV,
    .uint64 adultsV,
    .uint64 seniorsV,
    .uint64 totalAffectedV,
    .address accountAddress ]

/-- A draft with only the `vegetationLossPercent` analysis field replaced. -/
def withVegLoss (d : ProposalDraft) (v : Option ℚ) : ProposalDraft :=
  { d with analysisData := { d.analysisData with vegetationLossPercent := v } }

/-- C10: Vegetation loss is derived, not trusted.  The tenth transaction
argument (index 9, `vegetationLossPercent`): (i) equals the encoding of
`(ndviBefore - ndviAfter) * 100` whenever both NDVI readings are non-zero
(a missing reading defaults to 0); (ii) equals the encoding of 0 whenever
either reading is zero or missing; (iii) the whole argument list is
independent of the draft's own `vegetationLossPercent` field. -/
theorem claim_C10_vegetation_loss_derived :
    (∀ (d : ProposalDraft) (endTs : ℚ) (desc addr : String),
      d.analysisData.ndviBefore.getD 0 ≠ 0 →
      d.analysisData.ndviAfter.getD 0 ≠ 0 →
      (prepareTxArguments d endTs desc addr)[9]? =
        some (.ufix64 (decimalToUfix64
          ((d.analysisData.ndviBefore.getD 0 - d.analysisData.ndviAfter.getD 0) * 100)))) ∧
    (∀ (d : ProposalDraft) (endTs : ℚ) (desc addr : String),
      (d.analysisData.ndviBefore.getD 0 = 0 ∨ d.analysisData.ndviAfter.getD 0 = 0) →
      (prepareTxArguments d endTs desc addr)[9]? =
        some (.ufix64 (decimalToUfix64 0))) ∧
    (∀ (d : ProposalDraft) (endTs : ℚ) (desc addr : String) (v v2 : Option ℚ),
      prepareTxArguments (withVegLoss d v) endTs desc addr =
        prepareTxArguments (withVegLoss d v2) endTs desc addr) := by
  refine ⟨?_, ?_, ?_⟩
  · intro d endTs desc addr h1 h2
    simp [prepareTxArguments, h1, h2]
  · intro d endTs desc addr h
    have hneg : ¬ (d.analysisData.ndviBefore.getD 0 ≠ 0 ∧
        d.analysisData.ndviAfter.getD 0 ≠ 0) := by tauto
    simp only [prepareTxArguments, if_neg hneg]
    rfl
  · intro d endTs desc addr v v2
    rfl

/-- Witness for C10 at the spec's scenario draft (NDVI 0.70 → 0.20): the
encoded vegetation-loss argument is 50 % as a raw UFix64, and the result is
the same whatever the draft's own `vegetationLossPercent` says. -/
theorem claim_C10_witness :
    (prepareTxArguments
        { parkName := "Rock Creek Park"
          parkId := "rcp-1"
          analysisData :=
            { ndviBefore := some (70 / 100)
              ndviAfter := some (20 / 100)
              pm25Before := some 8
              pm25After := some 14
              pm25IncreasePercent := some 75
              vegetationLossPercent := some (99 / 100)
              demographics := some ⟨some 1200, some 3000, some 800⟩
              affectedPopulation10MinWalk := some 5000 } }
        2000 ("desc") ("f8d6e0586b0a20c7"))[9]? =
      some (.ufix64 (decimalToUfix64 ((70 / 100 - 20 / 100) * 100))) ∧
    decimalToUfix64 ((70 / 100 - 20 / 100 : ℚ) * 100) = 5000000000 := by
  constructor
  · exact claim_C10_vegetation_loss_derived.1 _ 2000 ("desc") ("f8d6e0586b0a20c7")
      (by norm_num) (by norm_num)
  · norm_num [decimalToUfix64, ratTrunc]

end ParkPulse
